import Mathlib

/-!
Shallow embedding of the NOTAM scraper (`src/notam.py`, function `scrape_notams`)
of the PAAWebsiteScrapping repository.

The Playwright render surface is modelled as a pure environment that records,
for each interaction the program performs, whether the interaction succeeds
(and with which value) or raises an exception (`Except String`).  Secondary
detail surfaces (browser tabs) are identified by natural-number ids; the
trace of `Event.opened` / `Event.closed` records which surfaces the resolver
opens and closes.  The CSV sink is modelled as a list of lines.  Machine
behaviour that the code never observes (timing of sleeps, screen output) is
not modelled.  Text is modelled as `\n`-separated strings, matching the
shape of the values the code inspects.
-/

namespace NotamScrape

/-- Sentinel written into all six summary fields when reading any cell text
raises (`notam.py` line 68). -/
def cellSentinel : String := "[Error reading cell]"

/-- Sentinel stored in `Details` when no anchor exists in the row
(`notam.py` line 122). -/
def anchorSentinel : String := "[Anchor tag not found]"

/-- Sentinel stored in `Details` when the detail surface has no `<pre>`
element (`notam.py` lines 92 and 117). -/
def noPreSentinel : String := "[No <pre> found]"

/-- Sentinel stored in `Details` when all four click attempts fail to
produce a new surface (`notam.py` line 120). -/
def retrySentinel : String := "[Failed to open detail page after retries]"

/-- Sentinel stored in `Details` when an exception escapes to the outer
handler of the detail block (`notam.py` line 124, the f-string
`[Error navigating to blob or opening view: {e}]`). -/
def errorSentinel (e : String) : String :=
  "[Error navigating to blob or opening view: " ++ e ++ "]"

/-- Surface lifecycle events: a detail surface (secondary tab) with the given
id is opened / closed. -/
inductive Event where
  | opened : Nat → Event
  | closed : Nat → Event
deriving DecidableEq, Repr

/-- Environment of a `<pre>` element: results of `inner_text()` and
`text_content()`, each of which may raise. -/
structure PreEnv where
  innerText : Except String String
  textContent : Except String String

/-- Environment of a detail surface: result of `goto(href)` (blob path only),
result of `wait_for_selector("pre", timeout=10000)`, and the element the
subsequent `query_selector("pre")` returns, if any. -/
structure SurfaceEnv where
  gotoRes : Except String Unit
  waitPre : Except String Unit
  pre : Option PreEnv

/-- Outcome of one iteration of the click-retry loop (`notam.py` lines
98-107): the `expect_page` + `click(force=True)` pair either raises without
creating a surface, or creates surface `sid` after which
`wait_for_selector("pre")` times out, or creates surface `sid` and the wait
succeeds (the loop then breaks). -/
inductive ClickAttempt where
  | noSurface
  | surfaceNoPre : Nat → ClickAttempt
  | surfaceOk : Nat → ClickAttempt
deriving DecidableEq, Repr

/-- Environment for one row's detail resolution (`notam.py` lines 70-124).
`anchorQ` is `row.query_selector("a")` (whether an anchor exists, or an
exception); `hrefQ` is `anchor.get_attribute("href")`; `blobSid` is the id
of the surface `context.new_page()` creates on the blob path; `attempts i`
is the behaviour of the i-th click attempt; `clickSurface sid` is the
environment of the click-created surface with id `sid`. -/
structure RowDetailEnv where
  anchorQ : Except String Bool
  hrefQ : Except String (Option String)
  blobSid : Nat
  blobSurface : SurfaceEnv
  attempts : Nat → ClickAttempt
  clickSurface : Nat → SurfaceEnv

/-- The whitespace characters Python `str.strip` removes. -/
def isPySpace (c : Char) : Bool :=
  c = ' ' || c = '\t' || c = '\n' || c = '\r' || c = '\x0b' || c = '\x0c'

/-- Python `str.strip`: remove leading and trailing whitespace. -/
def pyStrip (s : String) : String :=
  String.mk (((s.data.dropWhile isPySpace).reverse.dropWhile isPySpace).reverse)

/-- Python `str.splitlines` over `\n`-separated text: cut at every `\n`,
without a trailing empty piece (so `""` has no lines and `"a\n"` has
one). -/
def splitLinesAux : List Char → List (List Char)
  | [] => []
  | c :: cs =>
    if c = '\n' then [] :: splitLinesAux cs
    else
      match splitLinesAux cs with
      | [] => [[c]]
      | l :: ls => (c :: l) :: ls

/-- Python `str.splitlines` on a string. -/
def pySplitlines (s : String) : List String :=
  (splitLinesAux s.data).map String.mk

/-- Whether `p` is a leading segment of `s` (Python `str.startswith`). -/
def leadsAux : List Char → List Char → Bool
  | [], _ => true
  | _ :: _, [] => false
  | a :: as, b :: bs => a = b && leadsAux as bs

/-- Python `s.startswith(p)`. -/
def strLeads (p s : String) : Bool := leadsAux p.data s.data

/-- The detail-text read applied to a `<pre>` element (`notam.py` lines
85-89 and 111-114): `all_lines = pre.inner_text()`; if
`len(all_lines.strip().splitlines()) < 2` then `all_lines =
pre.text_content()`; result is `all_lines.strip()`.  Exceptions of either
accessor propagate. -/
def readPreText (p : PreEnv) : Except String String := do
  let first ← p.innerText
  let raw ←
    if (pySplitlines (pyStrip first)).length < 2 then p.textContent
    else pure first
  pure (pyStrip raw)

/-- `query_selector("pre")` followed by the detail-text read, with the
no-`<pre>` branch yielding its sentinel (`notam.py` lines 82-92 and
109-117). -/
def postRead (s : SurfaceEnv) : Except String String :=
  match s.pre with
  | some p => readPreText p
  | none => Except.ok noPreSentinel

/-- Python truthiness of `href and href.startswith("blob:")`
(`notam.py` line 77): a missing or empty href is falsy; otherwise test the
prefix. -/
def isBlobHref : Option String → Bool
  | some s => strLeads "blob:" s
  | none => false

/-- Blob path (`notam.py` lines 78-93): open a fresh surface, `goto` the
blob href, wait for `<pre>`, read it, and close the surface.  The `close`
call sits at the end of the `if`/`else`, not in a `finally`: any exception
raised after the surface is opened leaves it open and propagates. -/
def blobPath (env : RowDetailEnv) : Except String String × List Event :=
  match env.blobSurface.gotoRes with
  | .error e => (.error e, [Event.opened env.blobSid])
  | .ok _ =>
    match env.blobSurface.waitPre with
    | .error e => (.error e, [Event.opened env.blobSid])
    | .ok _ =>
      match postRead env.blobSurface with
      | .error e => (.error e, [Event.opened env.blobSid])
      | .ok t => (.ok t, [Event.opened env.blobSid, Event.closed env.blobSid])

/-- The click-retry loop (`notam.py` lines 97-107): starting at attempt
index `i` with `n` attempts remaining, current `detail_page` value `dp` and
list `acc` of surface ids opened so far, return the final `detail_page` and
the ids of all surfaces opened.  A surface-creating attempt overwrites `dp`
without closing the previous surface; a fully successful attempt breaks. -/
def clickLoop (att : Nat → ClickAttempt) : Nat → Nat → Option Nat → List Nat →
    Option Nat × List Nat
  | _, 0, dp, acc => (dp, acc)
  | i, n + 1, dp, acc =>
    match att i with
    | .noSurface => clickLoop att (i + 1) n dp acc
    | .surfaceNoPre sid => clickLoop att (i + 1) n (some sid) (acc ++ [sid])
    | .surfaceOk sid => (some sid, acc ++ [sid])

/-- Click path (`notam.py` lines 96-120): run the retry loop; if no surface
was produced, yield the retry sentinel; otherwise read the held surface and
close it.  As on the blob path, the `close` is not in a `finally`, so a
read exception leaves the surface open and propagates. -/
def clickPath (env : RowDetailEnv) : Except String String × List Event :=
  let res := clickLoop env.attempts 0 4 none []
  let ev := res.2.map Event.opened
  match res.1 with
  | none => (.ok retrySentinel, ev)
  | some sid =>
    match postRead (env.clickSurface sid) with
    | .error e => (.error e, ev)
    | .ok t => (.ok t, ev ++ [Event.closed sid])

/-- Body of the detail-resolution `try` block (`notam.py` lines 72-122):
locate the anchor, read its href, and dispatch to the blob or click path.
An `.error` result models an exception reaching the outer handler. -/
def resolveInner (env : RowDetailEnv) : Except String String × List Event :=
  match env.anchorQ with
  | .error e => (.error e, [])
  | .ok false => (.ok anchorSentinel, [])
  | .ok true =>
    match env.hrefQ with
    | .error e => (.error e, [])
    | .ok h => if isBlobHref h then blobPath env else clickPath env

/-- Full detail resolution (`notam.py` lines 70-124): the outer
`except Exception` converts any escaping exception into the descriptive
sentinel, so the resolver always returns a string. -/
def resolveDetails (env : RowDetailEnv) : String × List Event :=
  match resolveInner env with
  | (.ok t, ev) => (t, ev)
  | (.error e, ev) => (errorSentinel e, ev)

/-- Environment of one row: the number of `.rdt_TableCell` elements it
contains, the `inner_text()` result of cells 0-5 (consulted only when at
least 6 cells exist), and the detail-resolution environment. -/
structure RowEnv where
  numCells : Nat
  cells : Fin 6 → Except String String
  detail : RowDetailEnv

/-- One output record: the seven columns
`Location,NOTAM,Start Date,End Date,Status,Text,Details`. -/
structure NotamRecord where
  location : String
  notam : String
  startDate : String
  endDate : String
  status : String
  text : String
  details : String
deriving DecidableEq, Repr

/-- The `try` block over the six sequential cell reads (`notam.py` lines
58-65): all six succeed and their values are kept, or some read raises and
the block as a whole fails (`none`). -/
def extractSummary (c : Fin 6 → Except String String) :
    Option (String × String × String × String × String × String) :=
  match c 0 with
  | .error _ => none
  | .ok a =>
    match c 1 with
    | .error _ => none
    | .ok b =>
      match c 2 with
      | .error _ => none
      | .ok d =>
        match c 3 with
        | .error _ => none
        | .ok e =>
          match c 4 with
          | .error _ => none
          | .ok f =>
            match c 5 with
            | .error _ => none
            | .ok g => some (a, b, d, e, f, g)

/-- All six summary fields replaced by the cell sentinel (`notam.py`
line 68). -/
def sentinelSummary : String × String × String × String × String × String :=
  (cellSentinel, cellSentinel, cellSentinel, cellSentinel, cellSentinel,
    cellSentinel)

/-- Summary fields of a row: the cell texts if all reads succeed, otherwise
the sentinel six-tuple (`notam.py` lines 58-68). -/
def rowSummary (r : RowEnv) : String × String × String × String × String × String :=
  match extractSummary r.cells with
  | some v => v
  | none => sentinelSummary

/-- Assemble the record written by `writer.writerow` (`notam.py` lines
127-135). -/
def mkRecord (s : String × String × String × String × String × String)
    (dt : String) : NotamRecord :=
  ⟨s.1, s.2.1, s.2.2.1, s.2.2.2.1, s.2.2.2.2.1, s.2.2.2.2.2, dt⟩

/-- Processing of one row (`notam.py` lines 55-136): rows with fewer than 6
cells are skipped (no record, no detail resolution); otherwise the summary
is read, details resolved, and exactly one record produced. -/
def processRow (r : RowEnv) : Option NotamRecord × List Event :=
  if 6 ≤ r.numCells then
    let dtev := resolveDetails r.detail
    (some (mkRecord (rowSummary r) dtev.1), dtev.2)
  else (none, [])

/-- Run state of the page loop: `page_number`, `total_rows_processed`, the
records appended to the sink so far, and the cumulative counts at which a
flush-and-fsync was performed. -/
structure RunState where
  pageNumber : Nat
  total : Nat
  records : List NotamRecord
  flushes : List Nat
deriving DecidableEq, Repr

/-- Fold one row into the run state (`notam.py` lines 127-136): append its
record, if any, and bump `total_rows_processed`. -/
def appendRow (st : RunState) (r : RowEnv) : RunState :=
  match (processRow r).1 with
  | some rec => { st with records := st.records ++ [rec], total := st.total + 1 }
  | none => st

/-- The per-page flush check (`notam.py` lines 140-144): after the row loop,
flush and fsync exactly when `total_rows_processed % 100 == 0`. -/
def pageFlush (st : RunState) : RunState :=
  if st.total % 100 = 0 then { st with flushes := st.flushes ++ [st.total] }
  else st

/-- Process one page's rows then run the flush check (`notam.py` lines
55-144). -/
def processPage (rows : List RowEnv) (st : RunState) : RunState :=
  pageFlush (rows.foldl appendRow st)

/-- Behaviour of the `next` pagination affordance on a page
(`notam.py` lines 146-163): `query_selector("#pagination-next-page")`
returns nothing, or returns a button whose `aria-disabled` attribute reads
the given value, or some step of the next-handling raises. -/
inductive NextEnv where
  | absent
  | present : Option String → NextEnv
  | raises : String → NextEnv

/-- Behaviour of one iteration's page: the 10s wait for `.rdt_TableRow`
times out, or rows are found together with a `next`-affordance behaviour. -/
inductive PageEnv where
  | rowsTimeout
  | rowsFound : List RowEnv → NextEnv → PageEnv

/-- Why the `while True` loop ended. -/
inductive StopReason where
  | rowsTimeout
  | nextAbsent
  | nextDisabled
  | nextError
deriving DecidableEq, Repr

/-- The page loop (`notam.py` lines 40-163), fuel-bounded: iteration `i`
sees page behaviour `env i`.  A rows-wait timeout breaks before any
processing; otherwise the page is processed (rows, then flush check), and
the `next` affordance decides between breaking (absent / `aria-disabled ==
"true"` / exception) and advancing with `page_number += 1`.  `none` means
the fuel ran out before the loop ended. -/
def runLoop (env : Nat → PageEnv) : Nat → Nat → RunState →
    Option (RunState × StopReason)
  | _, 0, _ => none
  | i, fuel + 1, st =>
    match env i with
    | .rowsTimeout => some (st, .rowsTimeout)
    | .rowsFound rows next =>
      let st1 := processPage rows st
      match next with
      | .absent => some (st1, .nextAbsent)
      | .raises _ => some (st1, .nextError)
      | .present d =>
        if d = some "true" then some (st1, .nextDisabled)
        else runLoop env (i + 1) fuel { st1 with pageNumber := st1.pageNumber + 1 }

/-- Initial run state (`notam.py` lines 36-37): page 1, zero records. -/
def initialState : RunState := ⟨1, 0, [], []⟩

/-- The three loop-ending page conditions named by the specification:
rows-wait timeout, `next` absent, `aria-disabled == "true"`. -/
def PageEnv.claimStop : PageEnv → Bool
  | .rowsTimeout => true
  | .rowsFound _ .absent => true
  | .rowsFound _ (.present d) => d = some "true"
  | .rowsFound _ (.raises _) => false

/-- All page conditions on which the loop ends (the three above plus an
exception while handling the `next` affordance). -/
def PageEnv.stops : PageEnv → Bool
  | .rowsTimeout => true
  | .rowsFound _ .absent => true
  | .rowsFound _ (.present d) => d = some "true"
  | .rowsFound _ (.raises _) => true

/-- Page number stored in a loop result (0 if the fuel ran out). -/
def runPageNumber (o : Option (RunState × StopReason)) : Nat :=
  match o with
  | some out => out.1.pageNumber
  | none => 0

/-- A line of the CSV sink: the header line or one record line. -/
inductive Line where
  | header
  | record : NotamRecord → Line
deriving DecidableEq

/-- Number of header lines in a sink. -/
def headerCount (ls : List Line) : Nat :=
  ls.countP fun l => match l with | .header => true | _ => false

/-- One run against the sink (`notam.py` lines 28-34): `os.path.isfile` is
checked, the file is opened in append mode (creating it if missing), the
header is written only when the file did not exist, and the run's records
are appended. -/
def applyRun : Option (List Line) → List NotamRecord → List Line
  | none, recs => Line.header :: recs.map Line.record
  | some ls, recs => ls ++ recs.map Line.record

/-- A sequence of runs against the same sink file; `none` models a missing
file. -/
def applyRuns : Option (List Line) → List (List NotamRecord) → Option (List Line)
  | fs, [] => fs
  | fs, r :: rs => applyRuns (some (applyRun fs r)) rs

/-- Header count of a possibly-missing sink file. -/
def headerCountO : Option (List Line) → Nat
  | none => 0
  | some ls => headerCount ls

/-!  Concrete environments used to instantiate the theorems below. -/

/-- A detail surface that behaves but contains no `<pre>` element. -/
def bareSurface : SurfaceEnv := ⟨.ok (), .ok (), none⟩

/-- A row whose anchor query finds nothing: details resolve to the anchor
sentinel without touching any surface. -/
def noAnchorDetail : RowDetailEnv :=
  ⟨.ok false, .ok none, 0, bareSurface, fun _ => .noSurface, fun _ => bareSurface⟩

/-- A plain data row: six readable cells, no anchor. -/
def plainRow : RowEnv := ⟨6, fun _ => .ok "x", noAnchorDetail⟩

/-- A header-like row with only two cells. -/
def shortRow : RowEnv := ⟨2, fun _ => .ok "x", noAnchorDetail⟩

/-- A single page carrying 101 plain rows followed by an absent `next`
affordance. -/
def page101 : Nat → PageEnv :=
  fun _ => .rowsFound (List.replicate 101 plainRow) .absent

/-- A single page carrying 100 plain rows followed by an absent `next`
affordance. -/
def page100 : Nat → PageEnv :=
  fun _ => .rowsFound (List.replicate 100 plainRow) .absent

/-- Result of the one-page run over `page100`. -/
def page100Out : RunState × StopReason :=
  (runLoop page100 0 1 initialState).getD (initialState, .rowsTimeout)

/-- A blob-path environment whose 10s wait for `<pre>` times out after
surface 7 was opened. -/
def blobTimeoutDetail : RowDetailEnv :=
  ⟨.ok true, .ok (some "blob:abc"), 7,
    ⟨.ok (), .error "Timeout 10000ms exceeded", none⟩,
    fun _ => .noSurface, fun _ => bareSurface⟩

/-- A blob-path environment whose `<pre>` read succeeds with two lines. -/
def blobOkDetail : RowDetailEnv :=
  ⟨.ok true, .ok (some "blob:abc"), 3,
    ⟨.ok (), .ok (), some ⟨.ok "A\nB", .ok "raw"⟩⟩,
    fun _ => .noSurface, fun _ => bareSurface⟩

/-- A row with six cells whose third cell read raises. -/
def badCellRow : RowEnv :=
  ⟨6, fun i => if i = (2 : Fin 6) then .error "detached" else .ok "x",
    noAnchorDetail⟩

/-- A click-path environment in which the first four attempts produce no
surface while a fifth attempt, were it ever made, would succeed. -/
def fourFailDetail : RowDetailEnv :=
  ⟨.ok true, .ok none, 0, bareSurface,
    fun i => if i < 4 then .noSurface else .surfaceOk 9,
    fun _ => bareSurface⟩

/-- A blob-path environment whose primary read collapses to one line, with a
two-line raw fallback. -/
def blobShortDetail : RowDetailEnv :=
  ⟨.ok true, .ok (some "blob:abc"), 5,
    ⟨.ok (), .ok (), some ⟨.ok "one", .ok "A\nB"⟩⟩,
    fun _ => .noSurface, fun _ => bareSurface⟩

/-- A click-path environment whose first attempt succeeds on surface 6; the
primary read collapses to one line, with a two-line raw fallback. -/
def clickShortDetail : RowDetailEnv :=
  ⟨.ok true, .ok none, 0, bareSurface,
    fun _ => .surfaceOk 6,
    fun _ => ⟨.ok (), .ok (), some ⟨.ok "one", .ok "C\nD"⟩⟩⟩

/-- Two pages with an enabled `next` affordance, then a page with an absent
one. -/
def threePages : Nat → PageEnv :=
  fun i =>
    if i < 2 then .rowsFound [] (.present (some "false"))
    else .rowsFound [] .absent

/-- A row whose blob-path `goto` raises. -/
def gotoFailRow : RowEnv :=
  ⟨6, fun _ => .ok "x",
    ⟨.ok true, .ok (some "blob:abc"), 5,
      ⟨.error "net::ERR_ABORTED", .ok (), none⟩,
      fun _ => .noSurface, fun _ => bareSurface⟩⟩

/-- A click-path environment whose second attempt opens surface 8 but times
out waiting for `<pre>`; the remaining attempts produce no surface, and
surface 8 contains no `<pre>` element. -/
def staleSurfaceDetail : RowDetailEnv :=
  ⟨.ok true, .ok none, 0, bareSurface,
    fun i => if i = 1 then .surfaceNoPre 8 else .noSurface,
    fun _ => bareSurface⟩

/-- Ids of the surfaces opened in an event trace, in order. -/
def openedIds (ev : List Event) : List Nat :=
  ev.filterMap fun e => match e with | .opened s => some s | _ => none

/-- The trace ends by closing the most recently opened surface (or is
empty). -/
def closesHeld (ev : List Event) : Bool :=
  match ev.getLast?, (openedIds ev).getLast? with
  | none, _ => true
  | some (.closed s), some t => s = t
  | _, _ => false

/-!  Helper lemmas. -/

theorem extractSummary_error (c : Fin 6 → Except String String) (i : Fin 6)
    (e : String) (h : c i = .error e) : extractSummary c = none := by
  fin_cases i <;>
    cases h0 : c 0 <;> cases h1 : c 1 <;> cases h2 : c 2 <;> cases h3 : c 3 <;>
      cases h4 : c 4 <;> cases h5 : c 5 <;>
    simp_all [extractSummary]

theorem appendRow_flushes (st : RunState) (r : RowEnv) :
    (appendRow st r).flushes = st.flushes := by
  unfold appendRow
  cases (processRow r).1 <;> rfl

theorem appendRow_pageNumber (st : RunState) (r : RowEnv) :
    (appendRow st r).pageNumber = st.pageNumber := by
  unfold appendRow
  cases (processRow r).1 <;> rfl

theorem foldl_appendRow_flushes (rows : List RowEnv) (st : RunState) :
    (rows.foldl appendRow st).flushes = st.flushes := by
  induction rows generalizing st with
  | nil => rfl
  | cons r rs ih => rw [List.foldl_cons, ih, appendRow_flushes]

theorem foldl_appendRow_pageNumber (rows : List RowEnv) (st : RunState) :
    (rows.foldl appendRow st).pageNumber = st.pageNumber := by
  induction rows generalizing st with
  | nil => rfl
  | cons r rs ih => rw [List.foldl_cons, ih, appendRow_pageNumber]

theorem pageFlush_total (st : RunState) : (pageFlush st).total = st.total := by
  unfold pageFlush
  split <;> rfl

theorem pageFlush_pageNumber (st : RunState) :
    (pageFlush st).pageNumber = st.pageNumber := by
  unfold pageFlush
  split <;> rfl

theorem processPage_pageNumber (rows : List RowEnv) (st : RunState) :
    (processPage rows st).pageNumber = st.pageNumber := by
  unfold processPage
  rw [pageFlush_pageNumber, foldl_appendRow_pageNumber]

theorem processPage_flushes_mem (rows : List RowEnv) (st : RunState)
    (t : Nat) (h : t ∈ (processPage rows st).flushes) :
    t % 100 = 0 ∨ t ∈ st.flushes := by
  unfold processPage pageFlush at h
  split at h
  · next hmod =>
      dsimp only at h
      rw [foldl_appendRow_flushes] at h
      rcases List.mem_append.mp h with h1 | h1
      · exact Or.inr h1
      · left
        rw [List.mem_singleton.mp h1]
        exact hmod
  · rw [foldl_appendRow_flushes] at h
    exact Or.inr h

theorem runLoop_flushes_mult (env : Nat → PageEnv) :
    ∀ (fuel i : Nat) (st : RunState) (out : RunState × StopReason),
      runLoop env i fuel st = some out →
      (∀ t ∈ st.flushes, t % 100 = 0) → ∀ t ∈ out.1.flushes, t % 100 = 0 := by
  intro fuel
  induction fuel with
  | zero =>
    intro i st out h
    simp [runLoop] at h
  | succ n ih =>
    intro i st out h hst
    have hst1 : ∀ t ∈ (processPage ((fun rows => rows)
        (match env i with | .rowsFound rows _ => rows | _ => [])) st).flushes,
        t % 100 = 0 := by
      intro t ht
      rcases processPage_flushes_mem _ st t ht with h1 | h1
      · exact h1
      · exact hst t h1
    unfold runLoop at h
    cases he : env i with
    | rowsTimeout =>
      rw [he] at h
      cases h
      exact hst
    | rowsFound rows next =>
      rw [he] at h
      have hpage : ∀ t ∈ (processPage rows st).flushes, t % 100 = 0 := by
        intro t ht
        rcases processPage_flushes_mem rows st t ht with h1 | h1
        · exact h1
        · exact hst t h1
      cases next with
      | absent =>
        cases h
        exact hpage
      | raises e =>
        cases h
        exact hpage
      | present d =>
        dsimp only at h
        by_cases hd : d = some "true"
        · rw [if_pos hd] at h
          cases h
          exact hpage
        · rw [if_neg hd] at h
          exact ih (i + 1) _ out h (by simpa using hpage)

theorem clickLoop_noSurface (att : Nat → ClickAttempt) (i n : Nat)
    (dp : Option Nat) (acc : List Nat) (h : att i = .noSurface) :
    clickLoop att i (n + 1) dp acc = clickLoop att (i + 1) n dp acc := by
  conv_lhs => unfold clickLoop
  rw [h]

theorem clickLoop_surfaceNoPre (att : Nat → ClickAttempt) (i n sid : Nat)
    (dp : Option Nat) (acc : List Nat) (h : att i = .surfaceNoPre sid) :
    clickLoop att i (n + 1) dp acc =
      clickLoop att (i + 1) n (some sid) (acc ++ [sid]) := by
  conv_lhs => unfold clickLoop
  rw [h]

theorem clickLoop_surfaceOk (att : Nat → ClickAttempt) (i n sid : Nat)
    (dp : Option Nat) (acc : List Nat) (h : att i = .surfaceOk sid) :
    clickLoop att i (n + 1) dp acc = (some sid, acc ++ [sid]) := by
  conv_lhs => unfold clickLoop
  rw [h]

theorem clickLoop_all_noSurface (att : Nat → ClickAttempt) :
    ∀ (n i : Nat) (dp : Option Nat) (acc : List Nat),
      (∀ j, j < n → att (i + j) = .noSurface) →
      clickLoop att i n dp acc = (dp, acc) := by
  intro n
  induction n with
  | zero => intro i dp acc _; rfl
  | succ m ih =>
    intro i dp acc h
    have h0 : att i = .noSurface := by simpa using h 0 (Nat.succ_pos m)
    rw [clickLoop_noSurface att i m dp acc h0]
    refine ih (i + 1) dp acc (fun j hj => ?_)
    rw [show i + 1 + j = i + (j + 1) by omega]
    exact h (j + 1) (by omega)

theorem clickLoop_single_noPre (att : Nat → ClickAttempt) :
    ∀ (n i j sid : Nat) (dp : Option Nat) (acc : List Nat),
      j < n → att (i + j) = .surfaceNoPre sid →
      (∀ m, m < n → m ≠ j → att (i + m) = .noSurface) →
      clickLoop att i n dp acc = (some sid, acc ++ [sid]) := by
  intro n
  induction n with
  | zero => intro i j sid dp acc hj; omega
  | succ m ih =>
    intro i j sid dp acc hj hat hno
    cases j with
    | zero =>
      have h0 : att i = .surfaceNoPre sid := by simpa using hat
      rw [clickLoop_surfaceNoPre att i m sid dp acc h0]
      refine clickLoop_all_noSurface att m (i + 1) (some sid) (acc ++ [sid])
        (fun k hk => ?_)
      rw [show i + 1 + k = i + (k + 1) by omega]
      exact hno (k + 1) (by omega) (by omega)
    | succ j' =>
      have h0 : att i = .noSurface := by
        simpa using hno 0 (by omega) (by omega)
      rw [clickLoop_noSurface att i m dp acc h0]
      refine ih (i + 1) j' sid dp acc (by omega) ?_ (fun k hk hkj => ?_)
      · rw [show i + 1 + j' = i + (j' + 1) by omega]
        exact hat
      · rw [show i + 1 + k = i + (k + 1) by omega]
        exact hno (k + 1) (by omega) (by omega)

theorem clickLoop_last (att : Nat → ClickAttempt) :
    ∀ (n i : Nat) (dp : Option Nat) (acc : List Nat), dp = acc.getLast? →
      (clickLoop att i n dp acc).1 = (clickLoop att i n dp acc).2.getLast? := by
  intro n
  induction n with
  | zero => intro i dp acc h; simpa [clickLoop] using h
  | succ m ih =>
    intro i dp acc h
    unfold clickLoop
    cases att i with
    | noSurface => exact ih (i + 1) dp acc h
    | surfaceNoPre sid => exact ih (i + 1) (some sid) (acc ++ [sid]) (by simp)
    | surfaceOk sid => simp

theorem runLoop_stops_at (env : Nat → PageEnv) :
    ∀ (k i : Nat) (st : RunState),
      (env (i + k)).claimStop = true →
      (∀ j, j < k → (env (i + j)).stops = false) →
      (runLoop env i (k + 1) st).isSome = true ∧
        runPageNumber (runLoop env i (k + 1) st) = st.pageNumber + k := by
  intro k
  induction k with
  | zero =>
    intro i st hstop _
    rw [Nat.add_zero] at hstop
    unfold runLoop
    cases he : env i with
    | rowsTimeout => simp [runPageNumber]
    | rowsFound rows next =>
      rw [he] at hstop
      cases next with
      | absent => simp [runPageNumber, processPage_pageNumber]
      | raises e => simp [PageEnv.claimStop] at hstop
      | present d =>
        have hd : d = some "true" := by
          simpa [PageEnv.claimStop] using hstop
        simp [hd, runPageNumber, processPage_pageNumber]
  | succ m ih =>
    intro i st hstop hno
    have h0 : (env i).stops = false := by simpa using hno 0 (Nat.succ_pos m)
    cases he : env i with
    | rowsTimeout => rw [he] at h0; simp [PageEnv.stops] at h0
    | rowsFound rows next =>
      rw [he] at h0
      cases next with
      | absent => simp [PageEnv.stops] at h0
      | raises e => simp [PageEnv.stops] at h0
      | present d =>
        have hd : ¬d = some "true" := by
          simpa [PageEnv.stops] using h0
        have hrec := ih (i + 1)
          { processPage rows st with
              pageNumber := (processPage rows st).pageNumber + 1 }
          (by rw [show i + 1 + m = i + (m + 1) by omega]; exact hstop)
          (fun j hj => by
            rw [show i + 1 + j = i + (j + 1) by omega]
            exact hno (j + 1) (by omega))
        show (runLoop env i (m + 1 + 1) st).isSome = true ∧ _
        unfold runLoop
        rw [he]
        dsimp only
        rw [if_neg hd]
        refine ⟨hrec.1, ?_⟩
        rw [hrec.2]
        dsimp only
        rw [processPage_pageNumber]
        omega

theorem headerCount_map_record (recs : List NotamRecord) :
    headerCount (recs.map Line.record) = 0 := by
  induction recs with
  | nil => rfl
  | cons r rs ih =>
    simp only [List.map_cons, headerCount, List.countP_cons] at ih ⊢
    simp [ih]

theorem headerCount_applyRun (fs : Option (List Line)) (recs : List NotamRecord) :
    headerCount (applyRun fs recs) =
      headerCountO fs + (if fs.isSome then 0 else 1) := by
  cases fs with
  | none =>
    simp [applyRun, headerCount, headerCountO, List.countP_cons,
      headerCount_map_record]
  | some ls =>
    simp [applyRun, headerCount, headerCountO, List.countP_append]

theorem applyRuns_some_keeps (rs : List (List NotamRecord)) :
    ∀ ls : List Line, headerCount ls = 1 →
      headerCountO (applyRuns (some ls) rs) = 1 := by
  induction rs with
  | nil => intro ls h; simpa [applyRuns, headerCountO] using h
  | cons r rs ih =>
    intro ls h
    show headerCountO (applyRuns (some (applyRun (some ls) r)) rs) = 1
    refine ih (applyRun (some ls) r) ?_
    rw [headerCount_applyRun]
    simpa [headerCountO] using h

/-!  Claim theorems. -/

/-- C1, counterexample: on a run consisting of one page with 101 qualifying
rows, the cumulative appended-record count passes 100 yet no flush is ever
performed, refuting the claim that a durable flush happens exactly when the
count reaches each multiple of 100. -/
theorem c1_flush_miss_at_100 :
    (runLoop page101 0 1 initialState).map
      (fun out => (out.1.total, out.1.flushes)) = some (101, []) := by
  rfl

/-- C1, amended: a flush is performed at the end of each page's row loop
exactly when the cumulative appended-record count at that moment is a
multiple of 100 (including zero); consequently every recorded flush mark of
a run started with no flushes is a multiple of 100. -/
theorem c1_page_boundary_flush :
    (∀ (rows : List RowEnv) (st : RunState),
        ((processPage rows st).total % 100 = 0 →
          (processPage rows st).flushes =
            st.flushes ++ [(processPage rows st).total]) ∧
        ((processPage rows st).total % 100 ≠ 0 →
          (processPage rows st).flushes = st.flushes)) ∧
    (∀ (env : Nat → PageEnv) (i fuel : Nat) (st : RunState)
        (out : RunState × StopReason),
        runLoop env i fuel st = some out →
        (∀ t ∈ st.flushes, t % 100 = 0) →
        ∀ t ∈ out.1.flushes, t % 100 = 0) := by
  constructor
  · intro rows st
    unfold processPage pageFlush
    by_cases h : (List.foldl appendRow st rows).total % 100 = 0
    · rw [if_pos h]
      dsimp only
      constructor
      · intro _
        rw [foldl_appendRow_flushes]
      · intro h'
        exact absurd h h'
    · rw [if_neg h]
      constructor
      · intro h'
        exact absurd h' h
      · intro _
        rw [foldl_appendRow_flushes]
  · exact fun env i fuel st out h1 h2 =>
      runLoop_flushes_mult env fuel i st out h1 h2

/-- C1, witness for the amended claim: the empty first page flushes at
cumulative count 0, and the flush mark of a 100-row page run is a multiple
of 100. -/
theorem c1_page_boundary_flush_witness :
    (processPage [] initialState).flushes =
      initialState.flushes ++ [(processPage [] initialState).total] ∧
    (100 : Nat) % 100 = 0 :=
  ⟨(c1_page_boundary_flush.1 [] initialState).1 (by decide),
   c1_page_boundary_flush.2 page100 0 1 initialState page100Out rfl
     (by simp [initialState]) 100 (by decide)⟩

/-- C2, counterexample: on the blob path, when the bounded wait for the
preformatted container times out, the resolver returns with detail surface
7 opened and never closed — the claim that the surface is closed on every
exit path, timeouts included, fails. -/
theorem c2_surface_leak_on_timeout :
    resolveDetails blobTimeoutDetail =
      (errorSentinel "Timeout 10000ms exceeded", [Event.opened 7]) ∧
    Event.closed 7 ∉ (resolveDetails blobTimeoutDetail).2 := by
  constructor
  · rfl
  · decide

/-- C2, amended: the detail surface currently held is closed before the
resolver returns on every exit path on which no exception escapes to the
outer handler — the event trace then ends by closing the most recently
opened surface.  When an exception escapes after a surface is opened
(goto failure, container-wait timeout, text-read failure), or when a failed
click attempt's surface is superseded by a later attempt's, that surface is
not closed. -/
theorem c2_close_on_clean_exit :
    ∀ (env : RowDetailEnv) (t : String) (ev : List Event),
      resolveInner env = (.ok t, ev) → closesHeld ev = true := by
  intro env t ev h
  unfold resolveInner at h
  cases ha : env.anchorQ with
  | error e => rw [ha] at h; simp at h
  | ok b =>
    rw [ha] at h
    cases b with
    | false =>
      have hev := congrArg Prod.snd h
      dsimp only at hev
      subst hev
      rfl
    | true =>
      cases hh : env.hrefQ with
      | error e => rw [hh] at h; simp at h
      | ok hr =>
        rw [hh] at h
        dsimp only at h
        by_cases hb : isBlobHref hr = true
        · rw [if_pos hb] at h
          unfold blobPath at h
          cases hg : env.blobSurface.gotoRes with
          | error e => rw [hg] at h; simp at h
          | ok u =>
            rw [hg] at h
            cases hw : env.blobSurface.waitPre with
            | error e => rw [hw] at h; simp at h
            | ok u' =>
              rw [hw] at h
              cases hp : postRead env.blobSurface with
              | error e => rw [hp] at h; simp at h
              | ok t' =>
                rw [hp] at h
                have hev := congrArg Prod.snd h
                dsimp only at hev
                subst hev
                simp [closesHeld, openedIds]
        · rw [if_neg hb] at h
          unfold clickPath at h
          have hlast := clickLoop_last env.attempts 4 0 none [] rfl
          rcases hcl : clickLoop env.attempts 0 4 none [] with ⟨dp, acc⟩
          rw [hcl] at h hlast
          dsimp only at h hlast
          cases dp with
          | none =>
            have hnil : acc = [] := List.getLast?_eq_none_iff.mp hlast.symm
            subst hnil
            simp only [List.map_nil] at h
            have hev := congrArg Prod.snd h
            dsimp only at hev
            subst hev
            rfl
          | some sid =>
            dsimp only at h
            cases hp : postRead (env.clickSurface sid) with
            | error e => rw [hp] at h; simp at h
            | ok t' =>
              rw [hp] at h
              have hev := congrArg Prod.snd h
              dsimp only at hev
              subst hev
              have hop : openedIds
                  (acc.map Event.opened ++ [Event.closed sid]) = acc := by
                simp only [openedIds, List.filterMap_append,
                  List.filterMap_map]
                rw [show ((fun e => match e with
                    | Event.opened s => some s
                    | _ => none) ∘ Event.opened) = some from rfl]
                simp [List.filterMap_some]
              unfold closesHeld
              rw [hop, List.getLast?_concat, ← hlast]
              simp

/-- C2, witness for the amended claim: a successful blob-path resolution
yields a trace that ends by closing the surface it opened. -/
theorem c2_close_on_clean_exit_witness :
    closesHeld [Event.opened 3, Event.closed 3] = true :=
  c2_close_on_clean_exit blobOkDetail "A\nB"
    [Event.opened 3, Event.closed 3] (by rfl)

/-- C3 (confirmed): a row with at least 6 cells yields exactly one record
(the `NotamRecord` structure carries all seven columns); a row with fewer
than 6 cells yields no record and performs no surface interaction. -/
theorem c3_record_per_qualifying_row :
    ∀ r : RowEnv,
      ((processRow r).1.toList.length = if 6 ≤ r.numCells then 1 else 0) ∧
      (r.numCells < 6 → processRow r = (none, [])) := by
  intro r
  constructor
  · unfold processRow
    split <;> simp
  · intro h
    unfold processRow
    rw [if_neg (by omega)]

/-- C3, witness: a six-cell row yields one record; a two-cell row yields
none. -/
theorem c3_record_per_qualifying_row_witness :
    ((processRow plainRow).1.toList.length =
      if 6 ≤ plainRow.numCells then 1 else 0) ∧
    processRow shortRow = (none, []) :=
  ⟨(c3_record_per_qualifying_row plainRow).1,
   (c3_record_per_qualifying_row shortRow).2 (by decide)⟩

/-- C4 (confirmed): for a qualifying row, if reading any of the six cell
texts fails, all six summary fields of the emitted record equal the single
sentinel "[Error reading cell]", and the record is still produced. -/
theorem c4_sentinel_all_or_nothing :
    ∀ (r : RowEnv) (i : Fin 6) (e : String),
      6 ≤ r.numCells → r.cells i = .error e →
      ((processRow r).1.map fun rec =>
          (rec.location, rec.notam, rec.startDate, rec.endDate, rec.status,
            rec.text)) =
        some (cellSentinel, cellSentinel, cellSentinel, cellSentinel,
          cellSentinel, cellSentinel) := by
  intro r i e h6 he
  have hs : extractSummary r.cells = none := extractSummary_error r.cells i e he
  unfold processRow
  rw [if_pos h6]
  simp [rowSummary, hs, sentinelSummary, mkRecord]

/-- C4, witness: a row whose third cell read raises is recorded with all six
summary fields sentinel-filled. -/
theorem c4_sentinel_all_or_nothing_witness :
    ((processRow badCellRow).1.map fun rec =>
        (rec.location, rec.notam, rec.startDate, rec.endDate, rec.status,
          rec.text)) =
      some (cellSentinel, cellSentinel, cellSentinel, cellSentinel,
        cellSentinel, cellSentinel) :=
  c4_sentinel_all_or_nothing badCellRow 2 "detached" (by decide) (by rfl)

/-- C5 (confirmed): for a row whose anchor href is not a blob reference,
only the first 4 click attempts are consulted, and if none of them produces
a new surface the details value is the literal retry sentinel
"[Failed to open detail page after retries]" (the rendering of
Unavailable("failed to open detail page after retries")). -/
theorem c5_click_retry_sentinel :
    ∀ (env : RowDetailEnv) (h : Option String),
      env.anchorQ = .ok true → env.hrefQ = .ok h → isBlobHref h = false →
      (∀ i, i < 4 → env.attempts i = .noSurface) →
      resolveDetails env = (retrySentinel, []) := by
  intro env h ha hh hb hatt
  have e4 : clickLoop env.attempts 0 4 none [] = (none, []) :=
    clickLoop_all_noSurface env.attempts 4 0 none []
      (fun j hj => by simpa using hatt j hj)
  unfold resolveDetails resolveInner
  rw [ha, hh]
  dsimp only
  rw [if_neg (by simp [hb])]
  unfold clickPath
  rw [e4]
  rfl

/-- C5, witness: an environment whose first four attempts fail but whose
fifth attempt would succeed still resolves to the retry sentinel — the
fifth attempt is never made. -/
theorem c5_click_retry_sentinel_witness :
    resolveDetails fourFailDetail = (retrySentinel, []) :=
  c5_click_retry_sentinel fourFailDetail none rfl rfl rfl (by decide)

/-- C6 (confirmed): on both detail paths, if the primary preformatted-text
read succeeds and its trimmed value has fewer than 2 lines, the stored
details value is the raw-content fallback accessor's trimmed result;
otherwise it is the primary read's trimmed result. -/
theorem c6_short_read_fallback :
    (∀ (env : RowDetailEnv) (h : String) (p : PreEnv) (t u : String),
        env.anchorQ = .ok true → env.hrefQ = .ok (some h) →
        strLeads "blob:" h = true →
        env.blobSurface.gotoRes = .ok () → env.blobSurface.waitPre = .ok () →
        env.blobSurface.pre = some p → p.innerText = .ok t →
        p.textContent = .ok u →
        (resolveDetails env).1 =
          if (pySplitlines (pyStrip t)).length < 2 then pyStrip u
          else pyStrip t) ∧
    (∀ (env : RowDetailEnv) (sid : Nat) (p : PreEnv) (t u : String),
        env.anchorQ = .ok true → env.hrefQ = .ok none →
        env.attempts 0 = .surfaceOk sid →
        (env.clickSurface sid).pre = some p → p.innerText = .ok t →
        p.textContent = .ok u →
        (resolveDetails env).1 =
          if (pySplitlines (pyStrip t)).length < 2 then pyStrip u
          else pyStrip t) := by
  constructor
  · intro env h p t u ha hh hs hg hw hp hit htc
    unfold resolveDetails resolveInner
    rw [ha, hh]
    dsimp only
    rw [if_pos (by simp [isBlobHref, hs])]
    unfold blobPath postRead
    rw [hg, hw, hp]
    by_cases hc : (pySplitlines (pyStrip t)).length < 2
    · simp [readPreText, bind, Except.bind, pure, Except.pure, hit, htc, hc]
    · simp [readPreText, bind, Except.bind, pure, Except.pure, hit, htc, hc]
  · intro env sid p t u ha hh hatt hp hit htc
    have e4 : clickLoop env.attempts 0 4 none [] = (some sid, [sid]) := by
      have := clickLoop_surfaceOk env.attempts 0 3 sid none [] hatt
      simpa using this
    unfold resolveDetails resolveInner
    rw [ha, hh]
    dsimp only
    rw [if_neg (by simp [isBlobHref])]
    unfold clickPath postRead
    rw [e4]
    dsimp only
    rw [hp]
    by_cases hc : (pySplitlines (pyStrip t)).length < 2
    · simp [readPreText, bind, Except.bind, pure, Except.pure, hit, htc, hc]
    · simp [readPreText, bind, Except.bind, pure, Except.pure, hit, htc, hc]

/-- C6, witness: a one-line primary read falls back to the raw accessor on
the blob path and on the click path. -/
theorem c6_short_read_fallback_witness :
    (resolveDetails blobShortDetail).1 = "A\nB" ∧
    (resolveDetails clickShortDetail).1 = "C\nD" := by
  constructor
  · have h1 := c6_short_read_fallback.1 blobShortDetail "blob:abc"
      ⟨.ok "one", .ok "A\nB"⟩ "one" "A\nB" rfl rfl (by decide) rfl rfl rfl
      rfl rfl
    exact h1.trans (by decide)
  · have h1 := c6_short_read_fallback.2 clickShortDetail 6
      ⟨.ok "one", .ok "C\nD"⟩ "one" "C\nD" rfl rfl rfl rfl rfl rfl
    exact h1.trans (by decide)

/-- C7 (confirmed): if iteration k's page satisfies one of the three ending
conditions (rows-wait timeout, `next` absent, `aria-disabled` reads "true")
and no earlier iteration ends the loop, the loop terminates within k+1
iterations and the final page number is the initial one plus k — one
increment per successful `next` transition. -/
theorem c7_pagination_terminates :
    ∀ (env : Nat → PageEnv) (k : Nat) (st : RunState),
      (env k).claimStop = true →
      (∀ j, j < k → (env j).stops = false) →
      (runLoop env 0 (k + 1) st).isSome = true ∧
        runPageNumber (runLoop env 0 (k + 1) st) = st.pageNumber + k := by
  intro env k st h1 h2
  exact runLoop_stops_at env k 0 st (by simpa using h1)
    (fun j hj => by simpa using h2 j hj)

/-- C7, witness: two pages with an enabled `next` followed by a page with an
absent one terminate after three iterations with page number 3. -/
theorem c7_pagination_terminates_witness :
    (runLoop threePages 0 3 initialState).isSome = true ∧
      runPageNumber (runLoop threePages 0 3 initialState) =
        initialState.pageNumber + 2 :=
  c7_pagination_terminates threePages 2 initialState (by decide) (by decide)

/-- C8 (confirmed): one run writes the header exactly when the sink file did
not exist beforehand, and any non-empty sequence of runs starting from a
missing file leaves exactly one header line in the sink. -/
theorem c8_header_once :
    (∀ (fs : Option (List Line)) (recs : List NotamRecord),
        headerCount (applyRun fs recs) =
          headerCountO fs + (if fs.isSome then 0 else 1)) ∧
    (∀ (first : List NotamRecord) (rest : List (List NotamRecord)),
        headerCountO (applyRuns none (first :: rest)) = 1) := by
  constructor
  · exact headerCount_applyRun
  · intro first rest
    show headerCountO (applyRuns (some (applyRun none first)) rest) = 1
    refine applyRuns_some_keeps rest (applyRun none first) ?_
    rw [headerCount_applyRun]
    rfl

/-- C9 (confirmed): if an exception escapes the inner detail-resolution
logic of a qualifying row, it is converted to the descriptive sentinel in
the details field and the row's record is still produced — detail
resolution never aborts row processing. -/
theorem c9_detail_exception_degrades :
    ∀ (r : RowEnv) (e : String) (ev : List Event),
      6 ≤ r.numCells → resolveInner r.detail = (.error e, ev) →
      ((processRow r).1.map fun rec => rec.details) =
        some (errorSentinel e) := by
  intro r e ev h6 hres
  unfold processRow
  rw [if_pos h6]
  simp [resolveDetails, hres, mkRecord]

/-- C9, witness: a row whose blob-path navigation raises is still recorded,
with the sentinel naming the error. -/
theorem c9_detail_exception_degrades_witness :
    ((processRow gotoFailRow).1.map fun rec => rec.details) =
      some (errorSentinel "net::ERR_ABORTED") :=
  c9_detail_exception_degrades gotoFailRow "net::ERR_ABORTED"
    [Event.opened 5] (by decide) (by rfl)

/-- C10 (confirmed): if click attempt j opens surface `sid` but its
container wait fails, and every other attempt produces no surface, the
resolver proceeds with that stale surface: the details value is the result
of querying it (its container text or "[No <pre> found]"), not the retry
sentinel, and that stale surface is the one closed. -/
theorem c10_stale_surface_used :
    ∀ (env : RowDetailEnv) (j sid : Nat) (d : String),
      env.anchorQ = .ok true → env.hrefQ = .ok none →
      j < 4 → env.attempts j = .surfaceNoPre sid →
      (∀ i, i < 4 → i ≠ j → env.attempts i = .noSurface) →
      postRead (env.clickSurface sid) = .ok d →
      resolveDetails env = (d, [Event.opened sid, Event.closed sid]) := by
  intro env j sid d ha hh hj hjat hno hpost
  have e4 : clickLoop env.attempts 0 4 none [] = (some sid, [sid]) := by
    have := clickLoop_single_noPre env.attempts 4 0 j sid none [] hj
      (by simpa using hjat) (fun m hm hmj => by simpa using hno m hm hmj)
    simpa using this
  unfold resolveDetails resolveInner
  rw [ha, hh]
  dsimp only
  rw [if_neg (by simp [isBlobHref])]
  unfold clickPath
  rw [e4]
  dsimp only
  rw [hpost]
  rfl

/-- C10, witness: attempt 2 opens surface 8 whose container wait fails; the
remaining attempts produce nothing, and the record's details come from
querying surface 8 (no `<pre>` there), which is then closed. -/
theorem c10_stale_surface_used_witness :
    resolveDetails staleSurfaceDetail =
      (noPreSentinel, [Event.opened 8, Event.closed 8]) :=
  c10_stale_surface_used staleSurfaceDetail 1 8 noPreSentinel rfl rfl
    (by decide) (by decide) (by decide) rfl

end NotamScrape
